import Mathlib

/-
  Verification development for the wlog logging package (Go).

  The Go sources are shallowly embedded below:
  - file.go   (fileLogWriter): needRotate, WriteMsg, createLogFile, initFd,
    startLogger, lines, doRotate
  - log.go    (WLogger): WriteMsg, writeToLoggers, startLogger consumer loop,
    Close
  - logger.go: formatTimeHeader

  Modelling conventions:
  - The file system is an association list from path to content; os.Lstat is
    membership, os.Rename moves an entry, O_APPEND|O_CREATE open keeps or
    creates content.
  - Fallible operating-system calls that depend on the outside world
    (rename, chmod, open, stat, the write on the descriptor) are driven by an
    oracle record Env: a field none means the call succeeds, some e means it
    fails with error e, mirroring the Go error values.
  - Go byte strings are Lean String values; lengths are character counts,
    which agrees with Go byte lengths on the ASCII fragment.
  - Go int is Lean Int (no arithmetic here approaches the 64-bit range).
  - Goroutine interleaving for the async dispatch engine is a small-step
    relation DispatchStep; everything else is sequential, as the Go code runs
    each of these bodies under the writer mutex.
-/

set_option linter.unusedVariables false

namespace Wlog

/-! ## Time values and formatTimeHeader (logger.go) -/

structure GoTime where
  year : Nat
  month : Nat
  day : Nat
  hour : Nat
  minute : Nat
  second : Nat
deriving DecidableEq

/-- One decimal digit character; the argument is reduced mod 10 as in the
decimal printing loop of strconv. -/
def digitChar (n : Nat) : Char := Char.ofNat (48 + n % 10)

/-- Decimal digits of a natural number, most significant first; fuel-based so
that the kernel can evaluate it (fuel n + 1 always suffices). -/
def natDigits : Nat → Nat → List Char
  | 0, _ => []
  | fuel + 1, n => if n < 10 then [digitChar n] else natDigits fuel (n / 10) ++ [digitChar (n % 10)]

def natStr (n : Nat) : String := String.mk (natDigits (n + 1) n)

/-- Zero padding to a fixed width, as the Go time layouts 2006, 01, 02, 15,
04, 05 and the verb used for rotation numbers do. -/
def padNum (width n : Nat) : String :=
  String.mk (List.replicate (width - (natStr n).length) '0') ++ natStr n

/-- The Go layout "2006-01-02". -/
def dateFmt (t : GoTime) : String :=
  padNum 4 t.year ++ "-" ++ padNum 2 t.month ++ "-" ++ padNum 2 t.day

/-- The Go layout "2006-01-02 15:04:05". -/
def timeFmt (t : GoTime) : String :=
  dateFmt t ++ " " ++ padNum 2 t.hour ++ ":" ++ padNum 2 t.minute ++ ":" ++ padNum 2 t.second

/-- logger.go formatTimeHeader: the rendered timestamp plus a trailing space,
paired with when.Day(). -/
def formatTimeHeader (when : GoTime) : String × Nat :=
  (timeFmt when ++ " ", when.day)

/-! ## Writer state (file.go fileLogWriter) -/

structure FileLogWriter where
  Filename : String
  Day : Int
  MaxLines : Int
  maxLinesCurLines : Int
  MaxSize : Int
  maxSizeCurSize : Int
  Daily : Bool
  dailyOpenDate : Nat
  dailyOpenTime : GoTime
  Rotate : Bool
  Level : Int
  Perm : String
  RotatePerm : String
  filePath : String
  fileNameOnly : String
  suffix : String
deriving DecidableEq

/-- file.go needRotate. Note that the first argument, the pending message
size, is accepted and then never read, exactly as in the source. -/
def needRotate (w : FileLogWriter) (size : Int) (day : Nat) : Bool :=
  (decide (w.MaxLines > 0) && decide (w.maxLinesCurLines ≥ w.MaxLines)) ||
  (decide (w.MaxSize > 0) && decide (w.maxSizeCurSize ≥ w.MaxSize)) ||
  (w.Daily && (day != w.dailyOpenDate) && decide (w.maxLinesCurLines > 0))

/-- The rotation predicate in the words of the specification (claim C1):
the byte threshold compares byte count PLUS the pending bytes against
maxSize. This is the definition the code is compared against. -/
def needsRotationSpec (w : FileLogWriter) (pendingBytes : Int) (today : Nat) : Prop :=
  (w.MaxLines > 0 ∧ w.maxLinesCurLines ≥ w.MaxLines) ∨
  (w.MaxSize > 0 ∧ w.maxSizeCurSize + pendingBytes ≥ w.MaxSize) ∨
  (w.Daily = true ∧ today ≠ w.dailyOpenDate ∧ w.maxLinesCurLines > 0)

/-! ## File system model -/

abbrev FS := List (String × String)

def lookupFS (fs : FS) (name : String) : Option String :=
  match fs with
  | [] => none
  | (n, c) :: rest => if n = name then some c else lookupFS rest name

/-- os.Lstat succeeds exactly on paths present in the file system. -/
def fsExists (fs : FS) (name : String) : Bool := (lookupFS fs name).isSome

def fsSet (fs : FS) (name content : String) : FS :=
  match fs with
  | [] => [(name, content)]
  | (n, c) :: rest => if n = name then (n, content) :: rest else (n, c) :: fsSet rest name content

def fsRemove (fs : FS) (name : String) : FS :=
  match fs with
  | [] => []
  | (n, c) :: rest => if n = name then fsRemove rest name else (n, c) :: fsRemove rest name

/-- os.Rename: move the entry at src to dst. -/
def fsRename (fs : FS) (src dst : String) : FS :=
  match lookupFS fs src with
  | none => fs
  | some c => fsSet (fsRemove fs src) dst c

/-- Outcome oracle for the fallible operating-system calls; none means the
call succeeds. -/
structure Env where
  renameErr : Option String
  chmodErr : Option String
  openErr : Option String
  statErr : Option String
  writeErr : Option String
deriving DecidableEq

/-- Full writer state: the fileLogWriter fields, the file system it acts on,
and whether the os.File handle is currently open and usable. -/
structure LogState where
  w : FileLogWriter
  fs : FS
  handleOpen : Bool
deriving DecidableEq

/-- Content of the file the writer currently appends to. -/
def contentOf (s : LogState) : String := (lookupFS s.fs s.w.Filename).getD ""

/-! ## strconv.ParseInt(s, 8, 64), as used on the Perm strings -/

def isOctalDigit (c : Char) : Bool := decide ('0' ≤ c) && decide (c ≤ '7')

def parseOctal? (s : String) : Option Int :=
  let p : Bool × List Char :=
    match s.data with
    | '-' :: rest => (true, rest)
    | '+' :: rest => (false, rest)
    | l => (false, l)
  if p.2 = [] then none
  else if p.2.all isOctalDigit then
    let v : Nat := p.2.foldl (fun acc c => acc * 8 + (c.toNat - 48)) 0
    some (if p.1 then -(v : Int) else (v : Int))
  else none

/-! ## file.go lines(): count newlines with a 32768-byte read buffer -/

/-- One pass of the read loop in file.go lines: read up to 32768 bytes, add
the newline count of the chunk, stop at end of file. Fuel-based for kernel
evaluation; fuel (length + 1) always suffices because every pass consumes at
least one character of a non-empty remainder. -/
def linesGo : Nat → List Char → Nat → Nat
  | 0, _, count => count
  | fuel + 1, l, count =>
    if l.isEmpty then count
    else linesGo fuel (l.drop 32768) (count + ((l.take 32768).count '\n'))

def linesModel (content : String) : Nat := linesGo (content.length + 1) content.data 0

/-! ## file.go createLogFile, initFd, startLogger -/

/-- file.go createLogFile: parse Perm, os.OpenFile with O_WRONLY, O_APPEND
and O_CREATE (keeps existing content, creates an empty file otherwise). The
follow-up os.Chmod result is discarded by the source. -/
def createLogFile (s : LogState) (env : Env) : LogState × Option String :=
  if (parseOctal? s.w.Perm).isNone then (s, some "perm parse error")
  else
    match env.openErr with
    | some e => (s, some e)
    | none =>
      if fsExists s.fs s.w.Filename then (s, none)
      else ({ s with fs := fsSet s.fs s.w.Filename "" }, none)

/-- file.go initFd: stat the open file, seed the byte counter from its size,
record the open day, zero the line counter and, when line rotation is
enabled and the file is non-empty, re-seed it by scanning the file. The two
background goroutines started here (dailyRotate, taskDeleteLog) are outside
this sequential model. -/
def initFd (s : LogState) (env : Env) (now : GoTime) : LogState × Option String :=
  match env.statErr with
  | some e => (s, some ("get stat err: " ++ e))
  | none =>
    let content := contentOf s
    let sz : Int := (content.length : Int)
    let w1 := { s.w with maxSizeCurSize := sz, dailyOpenTime := now,
                         dailyOpenDate := now.day, maxLinesCurLines := 0 }
    let w2 := if (0:Int) < sz ∧ (0:Int) < w1.MaxLines
              then { w1 with maxLinesCurLines := (linesModel content : Int) }
              else w1
    ({ s with w := w2 }, none)

/-- file.go startLogger: createLogFile, close the previous handle, install
the fresh one, then initFd. -/
def startLogger (s : LogState) (env : Env) (now : GoTime) : LogState × Option String :=
  if ((createLogFile s env).2).isSome then createLogFile s env
  else initFd { (createLogFile s env).1 with handleOpen := true } env now

/-- The conditions under which startLogger succeeds; none of them depends on
the file system, only on the configuration and the environment oracle. -/
def startOk (w : FileLogWriter) (env : Env) : Prop :=
  (parseOctal? w.Perm).isSome = true ∧ env.openErr = none ∧ env.statErr = none

/-! ## file.go doRotate: successor name search and the rotation sequence -/

/-- The numbered sibling name, Sprintf ".%s.%03d%s" after the stem. -/
def numberedName (w : FileLogWriter) (dateStr : String) (num : Nat) : String :=
  w.fileNameOnly ++ "." ++ dateStr ++ "." ++ padNum 3 num ++ w.suffix

/-- The plain daily sibling name, Sprintf "%s.%s%s". -/
def dailyName (w : FileLogWriter) (dateStr : String) : String :=
  w.fileNameOnly ++ "." ++ dateStr ++ w.suffix

/-- The probing loop of doRotate: for num from its start value while the
last os.Lstat succeeded and num is at most 999, build the numbered name and
stat it. Returns the last name built and whether the final stat failed,
that is whether a free name was found. Fuel counts the remaining loop
entries; the callers pair num = 1 with fuel = 999 so that fuel runs out
exactly when num passes 999 with the name of round 999 still in hand. -/
def probeLoop (fs : FS) (mk : Nat → String) : Nat → Nat → String × Bool
  | 0, _ => (mk 999, false)
  | fuel + 1, num =>
    if num ≤ 999 then
      if fsExists fs (mk num) then probeLoop fs mk fuel (num + 1) else (mk num, true)
    else (mk 999, false)

def probeFrom (fs : FS) (mk : Nat → String) (num : Nat) : String × Bool :=
  probeLoop fs mk (1000 - num) num

/-- The name-determination section of doRotate: with size or line rotation
configured, probe numbered names stamped with the rotation time; with only
daily rotation configured, try the plain daily name stamped with the open
day first and fall back to the numbered probe. The Bool is true when an
unused name was found. -/
def determineName (w : FileLogWriter) (fs : FS) (logTime : GoTime) : String × Bool :=
  if (0:Int) < w.MaxLines ∨ (0:Int) < w.MaxSize then
    probeFrom fs (numberedName w (dateFmt logTime)) 1
  else
    if fsExists fs (dailyName w (dateFmt w.dailyOpenTime)) then
      probeFrom fs (numberedName w (dateFmt w.dailyOpenTime)) 1
    else (dailyName w (dateFmt w.dailyOpenTime), true)

/-- Observable steps of a rotation, in order: closing the handle, the rename
attempt, the chmod of the rotated file, the reopen (startLogger). -/
inductive RAct where
  | closeHandle
  | renameFile (src dst : String)
  | chmodFile (name : String)
  | reopen
deriving DecidableEq

/-- The RESTART_LOGGER tail of doRotate: run startLogger unconditionally,
then report a startLogger failure first, otherwise any earlier rename or
chmod failure, otherwise success. -/
def restartTail (s : LogState) (env : Env) (now : GoTime) (errBefore : Option String)
    (acts : List RAct) : LogState × Option String × List RAct :=
  ((startLogger s env now).1,
   match (startLogger s env now).2 with
   | some e => some ("Rotate StartLogger: " ++ e)
   | none =>
     match errBefore with
     | some e => some ("Rotate: " ++ e)
     | none => none,
   acts ++ [RAct.reopen])

/-- file.go doRotate on rotation time logTime, with now the wall clock used
by initFd. Returns the new state, the result, and the performed steps. -/
def doRotate (s : LogState) (env : Env) (logTime now : GoTime) :
    LogState × Option String × List RAct :=
  if (parseOctal? s.w.RotatePerm).isNone then (s, some "rotateperm parse error", [])
  else if fsExists s.fs s.w.Filename = false then
    -- os.Lstat of the active file failed: goto RESTART_LOGGER with that error
    restartTail s env now (some "lstat error") []
  else
    let dn := determineName s.w s.fs logTime
    if dn.2 = false then
      -- the last checked name still existed: report, never overwrite
      (s, some ("Rotate: Cannot find free log number to rename " ++ s.w.Filename), [])
    else
      let s1 := { s with handleOpen := false }
      match env.renameErr with
      | some e =>
        -- rename failed: goto RESTART_LOGGER, skipping chmod
        restartTail s1 env now (some e) [RAct.closeHandle, RAct.renameFile s.w.Filename dn.1]
      | none =>
        restartTail { s1 with fs := fsRename s1.fs s1.w.Filename dn.1 } env now env.chmodErr
          [RAct.closeHandle, RAct.renameFile s.w.Filename dn.1, RAct.chmodFile dn.1]

/-! ## file.go WriteMsg -/

/-- file.go WriteMsg: drop records below the configured severity, render the
line, rotate if due (a rotation error only goes to the stderr diagnostic
sink), append the line and on success bump both counters. -/
def fWriteMsg (s : LogState) (env : Env) (when now : GoTime) (msg0 : String) (level : Int) :
    LogState × Option String :=
  if s.w.Level < level then (s, none)
  else
    let hd := (formatTimeHeader when).1
    let day := (formatTimeHeader when).2
    let m := hd ++ msg0 ++ "\n"
    let s1 := if s.w.Rotate && needRotate s.w (m.length : Int) day
              then (doRotate s env when now).1 else s
    match env.writeErr with
    | some e => (s1, some e)
    | none =>
      ({ s1 with
          fs := fsSet s1.fs s1.w.Filename (contentOf s1 ++ m),
          w := { s1.w with
                  maxLinesCurLines := s1.w.maxLinesCurLines + 1,
                  maxSizeCurSize := s1.w.maxSizeCurSize + (m.length : Int) } }, none)

/-! ## log.go: levels, the dispatch queue, and the WLogger engine -/

def LevelEmergency : Int := 0
def LevelError : Int := 3
def LevelDebug : Int := 7

def levelPrefixes : List String :=
  ["[M] ", "[A] ", "[C] ", "[E] ", "[W] ", "[N] ", "[I] ", "[D] "]

/-- levelPrefix[level] for an in-range level. -/
def levelPrefixAt (n : Nat) : String := levelPrefixes.getD n ""

structure LogMsg where
  level : Int
  msg : String
  when : GoTime
deriving DecidableEq

/-- State of the async dispatch queue between the producers and the single
consumer goroutine: the records submitted so far in channel-send order, the
records still in msgChan, and the records already handed to the writer. -/
structure DispatchSt (M : Type) where
  submitted : List M
  queue : List M
  delivered : List M

/-- Interleaving steps of the async engine. submit is the channel send
bl.msgChan <- lm in log.go WriteMsg; consume is the msgChan branch of the
consumer loop in log.go startLogger (and of the drain loop in flush), which
takes the oldest queued record and hands it to the writer. Go channels are
FIFO, so a send appends and a receive takes the head. -/
inductive DispatchStep (M : Type) : DispatchSt M → DispatchSt M → Prop where
  | submit (s : DispatchSt M) (m : M) :
      DispatchStep M s
        { submitted := s.submitted ++ [m], queue := s.queue ++ [m], delivered := s.delivered }
  | consume (s : DispatchSt M) (m : M) (rest : List M) (h : s.queue = m :: rest) :
      DispatchStep M s
        { submitted := s.submitted, queue := rest, delivered := s.delivered ++ [m] }

/-- States reachable from the start of the consumer goroutine by any
interleaving of producers and the consumer. -/
inductive DispatchReach (M : Type) : DispatchSt M → Prop where
  | start : DispatchReach M { submitted := [], queue := [], delivered := [] }
  | step {s t : DispatchSt M} : DispatchReach M s → DispatchStep M s t → DispatchReach M t

/-- Caller-visible outcome of WLogger.WriteMsg: a returned error value, or a
Go runtime panic. -/
inductive WriteOutcome where
  | ret (err : Option String)
  | crash (reason : String)
deriving DecidableEq

def WriteOutcome.isRet : WriteOutcome → Bool
  | .ret _ => true
  | .crash _ => false

/-- Engine state of log.go WLogger. msgChanOpen and signalChanOpen record
whether the two channels have been closed; queue is the msgChan content;
stderrLines is the diagnostic sink written with fmt.Fprintf(os.Stderr, ...).
-/
structure WLoggerSt where
  level : Int
  inited : Bool
  asynchronous : Bool
  msgChanOpen : Bool
  signalChanOpen : Bool
  queue : List LogMsg
  outputs : Option LogState
  stderrLines : List String

/-- log.go writeToLoggers: call the file writer and report any error to
stderr only. Calling through a nil outputs pointer is a Go panic, modelled
as none. -/
def writeToLoggers (bl : WLoggerSt) (env : Env) (when now : GoTime) (msg : String)
    (level : Int) : Option WLoggerSt :=
  match bl.outputs with
  | none => none
  | some ls =>
    let r := fWriteMsg ls env when now msg level
    let bl1 := { bl with outputs := some r.1 }
    match r.2 with
    | some e =>
      some { bl1 with stderrLines :=
               bl1.stderrLines ++ ["unable to writeMsg to adapter:file,error:" ++ e] }
    | none => some bl1

/-- The dispatch tail of log.go WriteMsg: in async mode send the record on
msgChan (a send on a closed channel panics); in sync mode call
writeToLoggers. Either way the function returns nil to its caller. -/
def dispatchMsg (bl : WLoggerSt) (env : Env) (now : GoTime) (lv : Int) (msg : String) :
    WLoggerSt × WriteOutcome :=
  if bl.asynchronous then
    if bl.msgChanOpen then
      ({ bl with queue := bl.queue ++ [⟨lv, msg, now⟩] }, WriteOutcome.ret none)
    else (bl, WriteOutcome.crash "send on closed channel")
  else
    match writeToLoggers bl env now now msg lv with
    | none => (bl, WriteOutcome.crash "invalid memory address or nil pointer dereference")
    | some bl2 => (bl2, WriteOutcome.ret none)

/-- log.go WriteMsg. When the engine was never initialised the lazy
setLogger(AdapterFile) runs Init on the empty config, which fails with
"must have filename" and leaves outputs nil. Level -1 is levelLoggerImpl and
becomes LevelEmergency without a prefix; other levels outside the prefix
table would make the Go index expression panic. The function always returns
nil when it returns at all. -/
def blWriteMsg (bl : WLoggerSt) (env : Env) (now : GoTime) (logLevel : Int) (msg : String) :
    WLoggerSt × WriteOutcome :=
  let bl0 := if bl.inited then bl
             else { bl with stderrLines := bl.stderrLines ++ ["logs.SetLogger:must have filename"] }
  if logLevel = -1 then dispatchMsg bl0 env now 0 msg
  else if (0:Int) ≤ logLevel ∧ logLevel ≤ 7 then
    dispatchMsg bl0 env now logLevel (levelPrefixAt logLevel.toNat ++ msg)
  else (bl0, WriteOutcome.crash "index out of range")

/-- log.go Close. In async mode the consumer receives the close signal,
drains msgChan into the writer (delivery order is the DispatchStep model),
flushes, destroys the writer and stops; then the caller closes msgChan.
Both modes close signalChan last, so neither channel is reusable. -/
def blClose (bl : WLoggerSt) : WLoggerSt :=
  if bl.asynchronous then
    { bl with queue := [], outputs := none, msgChanOpen := false, signalChanOpen := false }
  else
    { bl with outputs := none, signalChanOpen := false }

/-! ## Concrete fixtures shared by the witnesses -/

def t0 : GoTime := ⟨2026, 10, 11, 12, 30, 45⟩

def envOK : Env := ⟨none, none, none, none, none⟩

def w0 : FileLogWriter :=
  { Filename := "app.log", Day := 7, MaxLines := 0, maxLinesCurLines := 0,
    MaxSize := 0, maxSizeCurSize := 0, Daily := false, dailyOpenDate := 11,
    dailyOpenTime := t0, Rotate := false, Level := 7, Perm := "0666",
    RotatePerm := "0666", filePath := ".", fileNameOnly := "app", suffix := ".log" }

def s0 : LogState := { w := w0, fs := [("app.log", "")], handleOpen := true }

/-! ## Claim C1 -/

/-- Claim C1 counterexample: with maxSize 10, current byte count 8 and 5
pending bytes, the specification predicate (byte count plus pendingBytes at
least maxSize) holds, but needRotate returns false: the code never adds the
pending size, its first parameter is unread. -/
instance (w : FileLogWriter) (pendingBytes : Int) (today : Nat) :
    Decidable (needsRotationSpec w pendingBytes today) := by
  unfold needsRotationSpec; infer_instance

theorem needRotate_pendingBytes_cex :
    needsRotationSpec { w0 with MaxSize := 10, maxSizeCurSize := 8 } 5 11 ∧
    needRotate { w0 with MaxSize := 10, maxSizeCurSize := 8 } 5 11 = false := by
  decide

/-- Claim C1 (amended): needRotate is true iff the line count reached
maxLines (when maxLines is positive), or the current byte count alone —
the pending-bytes argument is ignored — reached maxSize (when maxSize is
positive), or daily rotation is on, the day changed and the line counter is
positive; in particular it is false when all thresholds are disabled and
the day is unchanged. -/
theorem needRotate_iff (w : FileLogWriter) (size : Int) (day : Nat) :
    needRotate w size day = true ↔
      ((w.MaxLines > 0 ∧ w.maxLinesCurLines ≥ w.MaxLines) ∨
       (w.MaxSize > 0 ∧ w.maxSizeCurSize ≥ w.MaxSize) ∨
       (w.Daily = true ∧ day ≠ w.dailyOpenDate ∧ w.maxLinesCurLines > 0)) := by
  simp [needRotate, Bool.or_eq_true, Bool.and_eq_true, decide_eq_true_iff, bne_iff_ne,
    and_assoc, or_assoc]

/-! ## Claim C10 -/

/-- Claim C10: a record whose level is numerically greater than the
configured level makes WriteMsg return nil at once, leaving the file system,
the counters, and all other state untouched. -/
theorem writeMsg_level_filtered (s : LogState) (env : Env) (when now : GoTime)
    (msg0 : String) (level : Int) (h : s.w.Level < level) :
    fWriteMsg s env when now msg0 level = (s, none) := by
  simp [fWriteMsg, h]

/-- Claim C10 witness at level 9 against the configured level 7. -/
theorem writeMsg_level_filtered_witness :
    s0.w.Level < 9 ∧ fWriteMsg s0 envOK t0 t0 "m" 9 = (s0, none) :=
  ⟨by decide, writeMsg_level_filtered s0 envOK t0 t0 "m" 9 (by decide)⟩

/-! ## Claim C3 -/

/-- Claim C3: in async mode every reachable state of the dispatch queue
satisfies submitted = delivered ++ queue: the single consumer hands records
to the writer in exactly the order they were enqueued, never reordering and
never skipping. -/
theorem dispatch_fifo {M : Type} (s : DispatchSt M) (h : DispatchReach M s) :
    s.submitted = s.delivered ++ s.queue := by
  induction h with
  | start => rfl
  | step hr hs ih =>
    cases hs with
    | submit m => simp [ih, List.append_assoc]
    | consume m rest hq => simp [ih, hq]

/-- Claim C3 witness: submit 1, submit 2, consume once; the reached state
satisfies the FIFO invariant. -/
theorem dispatch_fifo_witness :
    DispatchReach Nat { submitted := [1, 2], queue := [2], delivered := [1] } ∧
    ({ submitted := [1, 2], queue := [2], delivered := [1] } : DispatchSt Nat).submitted =
      ({ submitted := [1, 2], queue := [2], delivered := [1] } : DispatchSt Nat).delivered ++
      ({ submitted := [1, 2], queue := [2], delivered := [1] } : DispatchSt Nat).queue := by
  have hreach : DispatchReach Nat { submitted := [1, 2], queue := [2], delivered := [1] } :=
    DispatchReach.step
      (DispatchReach.step
        (DispatchReach.step DispatchReach.start (DispatchStep.submit _ 1))
        (DispatchStep.submit _ 2))
      (DispatchStep.consume _ 1 [2] rfl)
  exact ⟨hreach, dispatch_fifo _ hreach⟩

/-! ## Claim C5 -/

/-- Claim C5: with the severity accepted and no rotation due, a successful
write appends exactly the line "<timestamp> <text>\n" to the file and bumps
the line counter by one and the byte counter by the length of the appended
string; a failed write returns the underlying error unmodified and changes
nothing. -/
theorem write_appends_line (s : LogState) (env : Env) (when now : GoTime)
    (msg0 : String) (level : Int)
    (hlvl : ¬ s.w.Level < level)
    (hrot : (s.w.Rotate && needRotate s.w
        ((((formatTimeHeader when).1 ++ msg0 ++ "\n").length : Int))
        (formatTimeHeader when).2) = false) :
    (env.writeErr = none →
       fWriteMsg s env when now msg0 level =
         ({ s with
             fs := fsSet s.fs s.w.Filename
                     (contentOf s ++ ((timeFmt when ++ " ") ++ msg0 ++ "\n")),
             w := { s.w with
                     maxLinesCurLines := s.w.maxLinesCurLines + 1,
                     maxSizeCurSize := s.w.maxSizeCurSize +
                       ((((timeFmt when ++ " ") ++ msg0 ++ "\n").length : Int)) } }, none)) ∧
    (∀ e, env.writeErr = some e → fWriteMsg s env when now msg0 level = (s, some e)) := by
  constructor
  · intro hw
    simp only [fWriteMsg, if_neg hlvl, hrot, Bool.false_eq_true, if_neg, ite_false, hw]
    rfl
  · intro e hw
    simp only [fWriteMsg, if_neg hlvl, hrot, Bool.false_eq_true, ite_false, hw]

/-- Claim C5 witness: a concrete successful append of "hello" at level 3. -/
theorem write_appends_line_witness :
    envOK.writeErr = none ∧
    fWriteMsg s0 envOK t0 t0 "hello" 3 =
      ({ s0 with
          fs := fsSet s0.fs s0.w.Filename
                  (contentOf s0 ++ ((timeFmt t0 ++ " ") ++ "hello" ++ "\n")),
          w := { s0.w with
                  maxLinesCurLines := s0.w.maxLinesCurLines + 1,
                  maxSizeCurSize := s0.w.maxSizeCurSize +
                    ((((timeFmt t0 ++ " ") ++ "hello" ++ "\n").length : Int)) } }, none) :=
  ⟨rfl, (write_appends_line s0 envOK t0 t0 "hello" 3 (by decide) (by decide)).1 rfl⟩

/-! ## Claim C8 -/

/-- With the record not filtered by severity, the error WriteMsg hands back
is exactly the write oracle outcome, rotation or not. -/
theorem fWriteMsg_err (s : LogState) (env : Env) (when now : GoTime) (msg0 : String)
    (level : Int) (hpass : ¬ s.w.Level < level) :
    (fWriteMsg s env when now msg0 level).2 = env.writeErr := by
  unfold fWriteMsg
  rw [if_neg hpass]
  cases h : env.writeErr <;> simp [h]

def blSync : WLoggerSt :=
  { level := 7, inited := true, asynchronous := false, msgChanOpen := true,
    signalChanOpen := true, queue := [], outputs := some s0, stderrLines := [] }

def envWriteFail : Env := { envOK with writeErr := some "disk full" }

/-- Claim C8 counterexample: in synchronous mode with the file write failing
with "disk full", WriteMsg still returns nil to its caller — the failure is
only reported on the stderr diagnostic sink, not propagated as an error. -/
theorem sync_error_swallowed_cex :
    envWriteFail.writeErr = some "disk full" ∧
    (blWriteMsg blSync envWriteFail t0 3 "boom").2 = WriteOutcome.ret none ∧
    (blWriteMsg blSync envWriteFail t0 3 "boom").1.stderrLines =
      ["unable to writeMsg to adapter:file,error:disk full"] :=
  ⟨rfl, rfl, rfl⟩

/-- Claim C8 (amended): a synchronous-mode log call whose underlying file
write fails still returns nil to the caller; the I/O failure is reported
only to the stderr diagnostic sink, as one appended line naming the
adapter and the error. -/
theorem sync_error_to_stderr (bl : WLoggerSt) (env : Env) (now : GoTime) (lvl : Int)
    (msg : String) (ls : LogState) (e : String)
    (hsync : bl.asynchronous = false) (hinit : bl.inited = true)
    (hout : bl.outputs = some ls)
    (hlvl : (0:Int) ≤ lvl ∧ lvl ≤ 7)
    (hpass : ¬ ls.w.Level < lvl)
    (herr : env.writeErr = some e) :
    (blWriteMsg bl env now lvl msg).2 = WriteOutcome.ret none ∧
    (blWriteMsg bl env now lvl msg).1.stderrLines =
      bl.stderrLines ++ ["unable to writeMsg to adapter:file,error:" ++ e] := by
  have hne : ¬ (lvl = -1) := by omega
  have herr2 : (fWriteMsg ls env now now (levelPrefixAt lvl.toNat ++ msg) lvl).2
      = some e := by
    rw [fWriteMsg_err ls env now now _ lvl hpass, herr]
  constructor <;>
    simp [blWriteMsg, hinit, hne, hlvl, dispatchMsg, hsync, writeToLoggers, hout, herr2]

/-- Claim C8 witness: the amended behavior at the concrete "disk full"
failure. -/
theorem sync_error_to_stderr_witness :
    envWriteFail.writeErr = some "disk full" ∧
    (blWriteMsg blSync envWriteFail t0 3 "boom").2 = WriteOutcome.ret none ∧
    (blWriteMsg blSync envWriteFail t0 3 "boom").1.stderrLines =
      blSync.stderrLines ++ ["unable to writeMsg to adapter:file,error:" ++ "disk full"] :=
  ⟨rfl, sync_error_to_stderr blSync envWriteFail t0 3 "boom" s0 "disk full"
    rfl rfl rfl (by decide) (by decide) rfl⟩

/-! ## Claim C9 -/

def blAsync : WLoggerSt :=
  { level := 7, inited := true, asynchronous := true, msgChanOpen := true,
    signalChanOpen := true, queue := [], outputs := some s0, stderrLines := [] }

/-- Claim C9 counterexample: a record submitted after Close does not come
back with a closed-state error value — no value is returned at all: the
channel send panics (send on closed channel), so the submission is a crash,
not a rejected call. -/
theorem submit_after_close_cex :
    ((blWriteMsg (blClose blAsync) envOK t0 3 "late").2).isRet = false ∧
    (blWriteMsg (blClose blAsync) envOK t0 3 "late").2 =
      WriteOutcome.crash "send on closed channel" :=
  ⟨rfl, rfl⟩

/-- Claim C9 (amended): after Close both channels are closed and not
reusable, and a later submission in async mode is neither accepted nor
blocked: the send on the closed msgChan panics; no closed-state error value
is produced and the engine state is unchanged by the attempt. -/
theorem submit_after_close_crashes (bl : WLoggerSt) (env : Env) (now : GoTime) (lvl : Int)
    (msg : String) (ha : bl.asynchronous = true) (hinit : bl.inited = true)
    (hlvl : (0:Int) ≤ lvl ∧ lvl ≤ 7) :
    (blClose bl).msgChanOpen = false ∧ (blClose bl).signalChanOpen = false ∧
    blWriteMsg (blClose bl) env now lvl msg =
      (blClose bl, WriteOutcome.crash "send on closed channel") := by
  have hne : ¬ (lvl = -1) := by omega
  refine ⟨by simp [blClose, ha], by simp [blClose, ha], ?_⟩
  simp [blWriteMsg, blClose, ha, hinit, hne, hlvl, dispatchMsg]

/-- Claim C9 witness: the concrete closed engine crashes on a late submit. -/
theorem submit_after_close_crashes_witness :
    blAsync.asynchronous = true ∧
    ((blClose blAsync).msgChanOpen = false ∧ (blClose blAsync).signalChanOpen = false ∧
     blWriteMsg (blClose blAsync) envOK t0 3 "late" =
       (blClose blAsync, WriteOutcome.crash "send on closed channel")) :=
  ⟨rfl, submit_after_close_crashes blAsync envOK t0 3 "late" rfl rfl (by decide)⟩

/-! ## Open and restart lemmas -/

theorem createLogFile_w (s : LogState) (env : Env) : (createLogFile s env).1.w = s.w := by
  unfold createLogFile
  split
  · rfl
  · cases h : env.openErr with
    | some e => rfl
    | none => dsimp only; split <;> rfl

theorem createLogFile_err_iff (s : LogState) (env : Env) :
    (createLogFile s env).2 = none ↔
      (parseOctal? s.w.Perm).isSome = true ∧ env.openErr = none := by
  cases hp : parseOctal? s.w.Perm with
  | none => simp [createLogFile, hp]
  | some p =>
    cases ho : env.openErr with
    | some e => simp [createLogFile, hp, ho]
    | none =>
      simp [createLogFile, hp, ho]
      split <;> simp

theorem initFd_err_iff (s : LogState) (env : Env) (now : GoTime) :
    (initFd s env now).2 = none ↔ env.statErr = none := by
  cases h : env.statErr <;> simp [initFd, h]

theorem initFd_handle (s : LogState) (env : Env) (now : GoTime) :
    (initFd s env now).1.handleOpen = s.handleOpen := by
  cases h : env.statErr <;> simp [initFd, h]

instance (w : FileLogWriter) (env : Env) : Decidable (startOk w env) := by
  unfold startOk; infer_instance

theorem startLogger_err_iff (s : LogState) (env : Env) (now : GoTime) :
    (startLogger s env now).2 = none ↔ startOk s.w env := by
  unfold startLogger
  split
  next h =>
    have hne : (createLogFile s env).2 ≠ none := by
      intro hc; rw [hc] at h; simp at h
    constructor
    · intro hc; exact absurd hc hne
    · intro hr; exact absurd ((createLogFile_err_iff s env).mpr ⟨hr.1, hr.2.1⟩) hne
  next h =>
    have hc : (createLogFile s env).2 = none := by
      cases hcc : (createLogFile s env).2 with
      | none => rfl
      | some e => rw [hcc] at h; simp at h
    have hpo := (createLogFile_err_iff s env).mp hc
    rw [initFd_err_iff]
    exact ⟨fun hst => ⟨hpo.1, hpo.2, hst⟩, fun hr => hr.2.2⟩

theorem startLogger_handle (s : LogState) (env : Env) (now : GoTime)
    (h : startOk s.w env) :
    (startLogger s env now).1.handleOpen = true := by
  have hc : (createLogFile s env).2 = none := (createLogFile_err_iff s env).mpr ⟨h.1, h.2.1⟩
  unfold startLogger
  simp [hc, initFd_handle]

theorem restartTail_res (s : LogState) (env : Env) (now : GoTime) (eb : Option String)
    (acts : List RAct) :
    ((restartTail s env now eb acts).2.1 = none ↔
       (startLogger s env now).2 = none ∧ eb = none) ∧
    (restartTail s env now eb acts).2.2 = acts ++ [RAct.reopen] ∧
    (restartTail s env now eb acts).1 = (startLogger s env now).1 := by
  unfold restartTail
  refine ⟨?_, rfl, rfl⟩
  cases hsl : (startLogger s env now).2 <;> cases eb <;> simp

/-- With the write oracle succeeding, WriteMsg reports no error whatever the
state (the record is either filtered, or written successfully, rotation or
not). -/
theorem fWriteMsg_err_none (s : LogState) (env : Env) (when now : GoTime) (msg0 : String)
    (level : Int) (hw : env.writeErr = none) :
    (fWriteMsg s env when now msg0 level).2 = none := by
  by_cases h : s.w.Level < level
  · simp [fWriteMsg, h]
  · rw [fWriteMsg_err s env when now msg0 level h, hw]

/-! ## Claim C2 -/

/-- Claim C2: once the target name was determined (a free name was found)
and the handle closed, doRotate attempts the reopen unconditionally — the
step list starts with closeHandle and ends with reopen whether or not the
rename succeeded; the rotation result is success iff rename, chmod and
reopen all succeeded; when the reopen conditions hold the writer is left
with an open handle even after a failed rename, and a subsequent write
succeeds. -/
theorem doRotate_always_reopens (s : LogState) (env : Env) (lt now : GoTime)
    (hperm : (parseOctal? s.w.RotatePerm).isSome = true)
    (hex : fsExists s.fs s.w.Filename = true)
    (hfound : (determineName s.w s.fs lt).2 = true) :
    (∃ mid, (doRotate s env lt now).2.2 = RAct.closeHandle :: mid ++ [RAct.reopen]) ∧
    ((doRotate s env lt now).2.1 = none ↔
       env.renameErr = none ∧ env.chmodErr = none ∧ startOk s.w env) ∧
    (startOk s.w env → (doRotate s env lt now).1.handleOpen = true) ∧
    (env.writeErr = none →
       ∀ msg lvl, (fWriteMsg (doRotate s env lt now).1 env lt now msg lvl).2 = none) := by
  have hnn : (parseOctal? s.w.RotatePerm).isNone = false := by
    cases hp : parseOctal? s.w.RotatePerm <;> simp_all
  cases hre : env.renameErr with
  | some e =>
    have hd : doRotate s env lt now =
        restartTail { s with handleOpen := false } env now (some e)
          [RAct.closeHandle, RAct.renameFile s.w.Filename (determineName s.w s.fs lt).1] := by
      unfold doRotate
      simp [hnn, hex, hfound, hre]
    have hrt := restartTail_res { s with handleOpen := false } env now (some e)
        [RAct.closeHandle, RAct.renameFile s.w.Filename (determineName s.w s.fs lt).1]
    refine ⟨?_, ?_, ?_, ?_⟩
    · exact ⟨[RAct.renameFile s.w.Filename (determineName s.w s.fs lt).1],
        by rw [hd, hrt.2.1]⟩
    · rw [hd, hrt.1]; simp [hre]
    · intro hok
      rw [hd, hrt.2.2]
      exact startLogger_handle _ env now hok
    · intro hw msg lvl
      exact fWriteMsg_err_none _ env lt now msg lvl hw
  | none =>
    have hd : doRotate s env lt now =
        restartTail
          { s with handleOpen := false,
                   fs := fsRename s.fs s.w.Filename (determineName s.w s.fs lt).1 }
          env now env.chmodErr
          [RAct.closeHandle, RAct.renameFile s.w.Filename (determineName s.w s.fs lt).1,
           RAct.chmodFile (determineName s.w s.fs lt).1] := by
      unfold doRotate
      simp [hnn, hex, hfound, hre]
    have hrt := restartTail_res
        { s with handleOpen := false,
                 fs := fsRename s.fs s.w.Filename (determineName s.w s.fs lt).1 }
        env now env.chmodErr
        [RAct.closeHandle, RAct.renameFile s.w.Filename (determineName s.w s.fs lt).1,
         RAct.chmodFile (determineName s.w s.fs lt).1]
    refine ⟨?_, ?_, ?_, ?_⟩
    · exact ⟨[RAct.renameFile s.w.Filename (determineName s.w s.fs lt).1,
          RAct.chmodFile (determineName s.w s.fs lt).1], by rw [hd, hrt.2.1]⟩
    · rw [hd, hrt.1, startLogger_err_iff]
      constructor
      · intro h1; exact ⟨rfl, h1.2, h1.1⟩
      · intro h2; exact ⟨h2.2.2, h2.2.1⟩
    · intro hok
      rw [hd, hrt.2.2]
      exact startLogger_handle _ env now hok
    · intro hw msg lvl
      exact fWriteMsg_err_none _ env lt now msg lvl hw

def wRot : FileLogWriter := { w0 with MaxSize := 1, maxSizeCurSize := 5, Rotate := true }

def sRot : LogState := { w := wRot, fs := [("app.log", "x\n")], handleOpen := true }

def envRenameFail : Env := { envOK with renameErr := some "permission denied" }

/-- Claim C2 witness: a concrete rotation under a failing rename still
closes, reopens, and ends with an open handle. -/
theorem doRotate_always_reopens_witness :
    fsExists sRot.fs sRot.w.Filename = true ∧
    (determineName sRot.w sRot.fs t0).2 = true ∧
    (∃ mid, (doRotate sRot envRenameFail t0 t0).2.2 =
       RAct.closeHandle :: mid ++ [RAct.reopen]) ∧
    (doRotate sRot envRenameFail t0 t0).1.handleOpen = true := by
  have h := doRotate_always_reopens sRot envRenameFail t0 t0 (by decide) (by decide) (by decide)
  exact ⟨by decide, by decide, h.1, h.2.2.1 (by decide)⟩

/-! ## Claim C4: probe loop lemmas and the naming rule -/

/-- If mk k is the first free name at or after the loop counter, the probe
stops exactly there. -/
theorem probeLoop_finds (fs : FS) (mk : Nat → String) :
    ∀ fuel num k, num + fuel = 1000 → num ≤ k → k ≤ 999 →
      fsExists fs (mk k) = false →
      (∀ j, num ≤ j → j < k → fsExists fs (mk j) = true) →
      probeLoop fs mk fuel num = (mk k, true) := by
  intro fuel
  induction fuel with
  | zero => intro num k hsum hnk hk999 hfree htaken; omega
  | succ fuel ih =>
    intro num k hsum hnk hk999 hfree htaken
    have hnum : num ≤ 999 := by omega
    unfold probeLoop
    rw [if_pos hnum]
    by_cases hx : fsExists fs (mk num) = true
    · rw [if_pos hx]
      have hlt : num < k := by
        rcases Nat.lt_or_ge num k with h | h
        · exact h
        · have heq : num = k := le_antisymm hnk h
          rw [heq] at hx; rw [hx] at hfree; cases hfree
      exact ih (num + 1) k (by omega) (by omega) hk999 hfree
        (fun j hj1 hj2 => htaken j (by omega) hj2)
    · rw [if_neg hx]
      have hnumk : num = k := by
        by_contra hne
        exact hx (htaken num le_rfl (lt_of_le_of_ne hnk hne))
      rw [hnumk]

/-- If every name from the loop counter through 999 is taken, the probe
reports failure with the round-999 name in hand. -/
theorem probeLoop_all_taken (fs : FS) (mk : Nat → String) :
    ∀ fuel num, num + fuel = 1000 →
      (∀ j, num ≤ j → j ≤ 999 → fsExists fs (mk j) = true) →
      probeLoop fs mk fuel num = (mk 999, false) := by
  intro fuel
  induction fuel with
  | zero => intro num hsum htaken; rfl
  | succ fuel ih =>
    intro num hsum htaken
    have hnum : num ≤ 999 := by omega
    unfold probeLoop
    rw [if_pos hnum, if_pos (htaken num le_rfl hnum)]
    exact ih (num + 1) (by omega) (fun j h1 h2 => htaken j (by omega) h2)

/-- Whenever the probe reports success, the returned name does not exist. -/
theorem probeLoop_found_free (fs : FS) (mk : Nat → String) :
    ∀ fuel num, (probeLoop fs mk fuel num).2 = true →
      fsExists fs (probeLoop fs mk fuel num).1 = false := by
  intro fuel
  induction fuel with
  | zero => intro num h; simp [probeLoop] at h
  | succ fuel ih =>
    intro num h
    unfold probeLoop at h ⊢
    by_cases hnum : num ≤ 999
    · rw [if_pos hnum] at h ⊢
      by_cases hx : fsExists fs (mk num) = true
      · rw [if_pos hx] at h ⊢; exact ih (num + 1) h
      · rw [if_neg hx] at h ⊢
        simp only [Bool.not_eq_true] at hx
        exact hx
    · rw [if_neg hnum] at h; simp at h

/-- Claim C4: with size or line rotation configured the successor name is
stem.date.NNN-suffix with NNN the smallest unused number from 001, failing
once 001 through 999 are all taken; with only daily rotation configured the
plain daily name is used first and the numbered form only as a fallback;
a successful probe always returns a non-existing name, and when no free
number exists doRotate returns the reported error and changes nothing —
it never overwrites an existing file. -/
theorem rotate_naming_spec (w : FileLogWriter) (fs : FS) (lt : GoTime) (k : Nat)
    (hk1 : 1 ≤ k) (hk2 : k ≤ 999) :
    ((0:Int) < w.MaxLines ∨ (0:Int) < w.MaxSize →
      (fsExists fs (numberedName w (dateFmt lt) k) = false →
       (∀ j, 1 ≤ j → j < k → fsExists fs (numberedName w (dateFmt lt) j) = true) →
       determineName w fs lt = (numberedName w (dateFmt lt) k, true)) ∧
      ((∀ j, 1 ≤ j → j ≤ 999 → fsExists fs (numberedName w (dateFmt lt) j) = true) →
       (determineName w fs lt).2 = false)) ∧
    (¬ ((0:Int) < w.MaxLines ∨ (0:Int) < w.MaxSize) →
      (fsExists fs (dailyName w (dateFmt w.dailyOpenTime)) = false →
       determineName w fs lt = (dailyName w (dateFmt w.dailyOpenTime), true)) ∧
      (fsExists fs (dailyName w (dateFmt w.dailyOpenTime)) = true →
       fsExists fs (numberedName w (dateFmt w.dailyOpenTime) k) = false →
       (∀ j, 1 ≤ j → j < k →
          fsExists fs (numberedName w (dateFmt w.dailyOpenTime) j) = true) →
       determineName w fs lt = (numberedName w (dateFmt w.dailyOpenTime) k, true))) ∧
    ((determineName w fs lt).2 = true → fsExists fs (determineName w fs lt).1 = false) ∧
    ((determineName w fs lt).2 = false →
      ∀ s env now, s.w = w → s.fs = fs →
        (parseOctal? w.RotatePerm).isSome = true → fsExists fs w.Filename = true →
        (doRotate s env lt now).1 = s ∧ (doRotate s env lt now).2.1 =
          some ("Rotate: Cannot find free log number to rename " ++ w.Filename)) := by
  refine ⟨?_, ?_, ?_, ?_⟩
  · intro hcfg
    constructor
    · intro hfree htaken
      unfold determineName
      rw [if_pos hcfg]
      unfold probeFrom
      exact probeLoop_finds fs (numberedName w (dateFmt lt)) (1000 - 1) 1 k (by omega)
        hk1 hk2 hfree htaken
    · intro htaken
      unfold determineName
      rw [if_pos hcfg]
      unfold probeFrom
      rw [probeLoop_all_taken fs (numberedName w (dateFmt lt)) (1000 - 1) 1 (by omega) htaken]
  · intro hcfg
    constructor
    · intro hfree
      unfold determineName
      rw [if_neg hcfg, if_neg (by simp [hfree])]
    · intro hbase hfree htaken
      unfold determineName
      rw [if_neg hcfg, if_pos hbase]
      unfold probeFrom
      exact probeLoop_finds fs (numberedName w (dateFmt w.dailyOpenTime)) (1000 - 1) 1 k
        (by omega) hk1 hk2 hfree htaken
  · intro hfnd
    unfold determineName at hfnd ⊢
    by_cases hcfg : (0:Int) < w.MaxLines ∨ (0:Int) < w.MaxSize
    · rw [if_pos hcfg] at hfnd ⊢
      unfold probeFrom at hfnd ⊢
      exact probeLoop_found_free fs (numberedName w (dateFmt lt)) (1000 - 1) 1 hfnd
    · rw [if_neg hcfg] at hfnd ⊢
      by_cases hbase : fsExists fs (dailyName w (dateFmt w.dailyOpenTime)) = true
      · rw [if_pos hbase] at hfnd ⊢
        unfold probeFrom at hfnd ⊢
        exact probeLoop_found_free fs (numberedName w (dateFmt w.dailyOpenTime)) (1000 - 1) 1 hfnd
      · rw [if_neg hbase] at hfnd ⊢
        simp only [Bool.not_eq_true] at hbase
        exact hbase
  · intro hnf s env now hsw hsfs hp hex
    subst hsw; subst hsfs
    have hnn : (parseOctal? s.w.RotatePerm).isNone = false := by
      cases hpp : parseOctal? s.w.RotatePerm <;> simp_all
    unfold doRotate
    simp [hnn, hex, hnf]

/-- Claim C4 witness: with size rotation configured and no numbered sibling
present, the first rotation of the day picks sequence number 001. -/
theorem rotate_naming_spec_witness :
    (((0:Int) < wRot.MaxLines ∨ (0:Int) < wRot.MaxSize) ∧
      fsExists sRot.fs (numberedName wRot (dateFmt t0) 1) = false) ∧
    determineName wRot sRot.fs t0 = (numberedName wRot (dateFmt t0) 1, true) :=
  ⟨⟨by decide, by decide⟩,
   (((rotate_naming_spec wRot sRot.fs t0 1 le_rfl (by decide)).1 (by decide)).1 (by decide)
     (fun j h1 h2 => absurd (Nat.lt_of_lt_of_le h2 h1) (lt_irrefl j)))⟩

/-! ## Newline counting lemmas -/

/-- Newline count of a Go string. -/
def countNL (s : String) : Nat := s.data.count '\n'

theorem countNL_append (a b : String) : countNL (a ++ b) = countNL a + countNL b := by
  unfold countNL
  rw [String.data_append, List.count_append]

theorem strLen_append (a b : String) : (a ++ b).length = a.length + b.length := by
  show (a ++ b).data.length = a.data.length + b.data.length
  rw [String.data_append, List.length_append]

theorem digitChar_ne_nl (n : Nat) : digitChar n ≠ '\n' := by
  have h : ∀ k, k < 10 → Char.ofNat (48 + k) ≠ '\n' := by decide
  exact h (n % 10) (Nat.mod_lt n (by decide))

theorem count_nl_natDigits : ∀ fuel n, (natDigits fuel n).count '\n' = 0 := by
  intro fuel
  induction fuel with
  | zero => intro n; rfl
  | succ fuel ih =>
    intro n
    unfold natDigits
    split
    · simp [List.count_cons, digitChar_ne_nl n]
    · rw [List.count_append, ih]
      simp [List.count_cons, digitChar_ne_nl (n % 10)]

theorem countNL_natStr (n : Nat) : countNL (natStr n) = 0 := count_nl_natDigits (n + 1) n

theorem countNL_padNum (width n : Nat) : countNL (padNum width n) = 0 := by
  unfold padNum
  rw [countNL_append]
  have h1 : countNL (String.mk (List.replicate (width - (natStr n).length) '0')) = 0 := by
    unfold countNL
    exact List.count_eq_zero.mpr (fun hmem => by
      have := (List.mem_replicate.mp hmem).2
      exact absurd this (by decide))
  rw [h1, countNL_natStr]

theorem countNL_dateFmt (t : GoTime) : countNL (dateFmt t) = 0 := by
  unfold dateFmt
  rw [countNL_append, countNL_append, countNL_append, countNL_append,
    countNL_padNum, countNL_padNum, countNL_padNum]
  decide

theorem countNL_timeFmt (t : GoTime) : countNL (timeFmt t) = 0 := by
  unfold timeFmt
  rw [countNL_append, countNL_append, countNL_append, countNL_append, countNL_append,
    countNL_append, countNL_dateFmt, countNL_padNum, countNL_padNum, countNL_padNum]
  decide

theorem countNL_header (t : GoTime) : countNL ((formatTimeHeader t).1) = 0 := by
  unfold formatTimeHeader
  rw [countNL_append, countNL_timeFmt]
  decide

/-! ## The lines() scan counts exactly the newlines -/

theorem linesGo_eq : ∀ fuel (l : List Char) (acc : Nat), l.length < fuel →
    linesGo fuel l acc = acc + l.count '\n' := by
  intro fuel
  induction fuel with
  | zero => intro l acc h; omega
  | succ fuel ih =>
    intro l acc h
    unfold linesGo
    by_cases hl : l.isEmpty
    · rw [if_pos hl]
      have hnil : l = [] := List.isEmpty_iff.mp hl
      simp [hnil]
    · rw [if_neg hl]
      have hne : l ≠ [] := by simpa [List.isEmpty_iff] using hl
      have hlen : (l.drop 32768).length < fuel := by
        rw [List.length_drop]
        have hpos : 0 < l.length := List.length_pos.mpr hne
        omega
      rw [ih (l.drop 32768) _ hlen]
      have hsplit : (l.take 32768).count '\n' + (l.drop 32768).count '\n' = l.count '\n' := by
        rw [← List.count_append, List.take_append_drop]
      omega

theorem linesModel_eq_countNL (c : String) : linesModel c = countNL c := by
  unfold linesModel countNL
  rw [linesGo_eq (c.length + 1) c.data 0 (Nat.lt_succ_self c.data.length), Nat.zero_add]

/-! ## Claim C7 -/

/-- K newline-terminated lines, each line free of interior newlines. -/
def joinLines : List String → String
  | [] => ""
  | seg :: rest => seg ++ "\n" ++ joinLines rest

theorem countNL_joinLines (segs : List String) (h : ∀ seg ∈ segs, countNL seg = 0) :
    countNL (joinLines segs) = segs.length := by
  induction segs with
  | nil => rfl
  | cons seg rest ih =>
    show countNL ((seg ++ "\n") ++ joinLines rest) = rest.length + 1
    rw [countNL_append, countNL_append, h seg (List.mem_cons_self seg rest),
      ih (fun s hs => h s (List.mem_cons_of_mem seg hs))]
    have h1 : countNL "\n" = 1 := rfl
    omega

/-- Claim C7: opening a pre-existing file of exactly K newline-terminated
lines with line rotation enabled seeds the line counter to exactly K (the
single chunked scan of lines()), and the byte counter to the actual file
size. -/
theorem line_seed_exact (s : LogState) (env : Env) (now : GoTime) (segs : List String)
    (hml : (0:Int) < s.w.MaxLines)
    (hstat : env.statErr = none)
    (hcontent : lookupFS s.fs s.w.Filename = some (joinLines segs))
    (hsegs : ∀ seg ∈ segs, countNL seg = 0) :
    (initFd s env now).2 = none ∧
    (initFd s env now).1.w.maxLinesCurLines = (segs.length : Int) ∧
    (initFd s env now).1.w.maxSizeCurSize = ((joinLines segs).length : Int) := by
  have hc : contentOf s = joinLines segs := by
    unfold contentOf; rw [hcontent]; rfl
  have hcount : (linesModel (joinLines segs) : Int) = (segs.length : Int) := by
    rw [linesModel_eq_countNL, countNL_joinLines segs hsegs]
  by_cases hpos : (0:Int) < ((joinLines segs).length : Int)
  · have hEq : initFd s env now =
        ({ s with w := { s.w with
            maxSizeCurSize := ((joinLines segs).length : Int),
            dailyOpenTime := now, dailyOpenDate := now.day,
            maxLinesCurLines := (linesModel (joinLines segs) : Int) } }, none) := by
      unfold initFd
      rw [hstat]
      dsimp only
      rw [hc, if_pos ⟨hpos, hml⟩]
    rw [hEq]
    exact ⟨rfl, hcount, rfl⟩
  · have hseg0 : segs = [] := by
      cases hsg : segs with
      | nil => rfl
      | cons seg rest =>
        exfalso
        apply hpos
        rw [hsg]
        show (0:Int) < (((seg ++ "\n") ++ joinLines rest).length : Int)
        rw [strLen_append, strLen_append]
        have h1 : ("\n" : String).length = 1 := rfl
        push_cast
        omega
    subst hseg0
    have hEq : initFd s env now =
        ({ s with w := { s.w with
            maxSizeCurSize := ((joinLines ([] : List String)).length : Int),
            dailyOpenTime := now, dailyOpenDate := now.day,
            maxLinesCurLines := 0 } }, none) := by
      unfold initFd
      rw [hstat]
      dsimp only
      rw [hc, if_neg (fun h => hpos h.1)]
    rw [hEq]
    exact ⟨rfl, rfl, rfl⟩

def sSeed : LogState :=
  { w := { w0 with MaxLines := 10 }, fs := [("app.log", joinLines ["a", "bb"])],
    handleOpen := true }

/-- Claim C7 witness: a pre-existing file holding the two newline-terminated
lines "a" and "bb" seeds the counter to 2 and the byte counter to 5. -/
theorem line_seed_exact_witness :
    ((0:Int) < sSeed.w.MaxLines ∧
      lookupFS sSeed.fs sSeed.w.Filename = some (joinLines ["a", "bb"])) ∧
    ((initFd sSeed envOK t0).2 = none ∧
     (initFd sSeed envOK t0).1.w.maxLinesCurLines = ((["a", "bb"] : List String).length : Int) ∧
     (initFd sSeed envOK t0).1.w.maxSizeCurSize = ((joinLines ["a", "bb"]).length : Int)) :=
  ⟨⟨by decide, rfl⟩,
   line_seed_exact sSeed envOK t0 ["a", "bb"] (by decide) rfl rfl (by decide)⟩

/-! ## Claim C6 -/

theorem lookupFS_fsSet_self (fs : FS) (n c : String) :
    lookupFS (fsSet fs n c) n = some c := by
  induction fs with
  | nil => simp [fsSet, lookupFS]
  | cons p rest ih =>
    rcases p with ⟨pn, pc⟩
    by_cases h : pn = n
    · simp [fsSet, lookupFS, h]
    · simp [fsSet, lookupFS, h, ih]

/-- The successful initFd result in closed form. -/
theorem initFd_spec (s : LogState) (env : Env) (now : GoTime) (hstat : env.statErr = none) :
    initFd s env now =
      ({ s with w := { s.w with
          maxSizeCurSize := ((contentOf s).length : Int),
          dailyOpenTime := now, dailyOpenDate := now.day,
          maxLinesCurLines :=
            if (0:Int) < ((contentOf s).length : Int) ∧ (0:Int) < s.w.MaxLines
            then (linesModel (contentOf s) : Int) else 0 } }, none) := by
  unfold initFd
  rw [hstat]
  dsimp only
  by_cases hcond : (0:Int) < ((contentOf s).length : Int) ∧ (0:Int) < s.w.MaxLines
  · rw [if_pos hcond, if_pos hcond]
  · rw [if_neg hcond, if_neg hcond]

/-- Claim C6: the byte and line counters always reflect the currently open
file as of the last successful write. After every successful restart
(open or rotation reopen) the byte counter equals the actual file size and
the line counter is zero unless line rotation is enabled and the file is
non-empty, in which case it is re-seeded to the file's newline count; a
successful write on a state whose counters agree with the file leaves them
agreeing (the line part for records without embedded newlines). -/
theorem counters_track_file (s : LogState) (env : Env) (now when : GoTime)
    (msg0 : String) (lvl : Int) :
    ((startLogger s env now).2 = none →
       (startLogger s env now).1.w.maxSizeCurSize =
         ((contentOf (startLogger s env now).1).length : Int) ∧
       (startLogger s env now).1.w.maxLinesCurLines =
         (if (0:Int) < ((contentOf (startLogger s env now).1).length : Int) ∧
             (0:Int) < (startLogger s env now).1.w.MaxLines
          then (countNL (contentOf (startLogger s env now).1) : Int) else 0)) ∧
    (¬ s.w.Level < lvl →
     (s.w.Rotate && needRotate s.w
        ((((formatTimeHeader when).1 ++ msg0 ++ "\n").length : Int))
        (formatTimeHeader when).2) = false →
     env.writeErr = none →
     (s.w.maxSizeCurSize = ((contentOf s).length : Int) →
        (fWriteMsg s env when now msg0 lvl).1.w.maxSizeCurSize =
          ((contentOf (fWriteMsg s env when now msg0 lvl).1).length : Int)) ∧
     (countNL msg0 = 0 →
      s.w.maxLinesCurLines = (countNL (contentOf s) : Int) →
        (fWriteMsg s env when now msg0 lvl).1.w.maxLinesCurLines =
          (countNL (contentOf (fWriteMsg s env when now msg0 lvl).1) : Int))) := by
  constructor
  · intro hok
    have hst : startOk s.w env := (startLogger_err_iff s env now).mp hok
    have hcf : (createLogFile s env).2 = none :=
      (createLogFile_err_iff s env).mpr ⟨hst.1, hst.2.1⟩
    have hsl : startLogger s env now =
        initFd { (createLogFile s env).1 with handleOpen := true } env now := by
      unfold startLogger
      simp [hcf]
    rw [hsl, initFd_spec { (createLogFile s env).1 with handleOpen := true } env now hst.2.2]
    dsimp only [contentOf]
    rw [linesModel_eq_countNL]
    exact ⟨rfl, rfl⟩
  · intro hlvl hrot hw
    have hEq : fWriteMsg s env when now msg0 lvl =
        ({ s with
            fs := fsSet s.fs s.w.Filename
                    (contentOf s ++ ((formatTimeHeader when).1 ++ msg0 ++ "\n")),
            w := { s.w with
                    maxLinesCurLines := s.w.maxLinesCurLines + 1,
                    maxSizeCurSize := s.w.maxSizeCurSize +
                      ((((formatTimeHeader when).1 ++ msg0 ++ "\n").length : Int)) } },
         none) := by
      simp only [fWriteMsg, if_neg hlvl, hrot, Bool.false_eq_true, ite_false, hw]
    rw [hEq]
    have hco : contentOf
        ({ s with
            fs := fsSet s.fs s.w.Filename
                    (contentOf s ++ ((formatTimeHeader when).1 ++ msg0 ++ "\n")),
            w := { s.w with
                    maxLinesCurLines := s.w.maxLinesCurLines + 1,
                    maxSizeCurSize := s.w.maxSizeCurSize +
                      ((((formatTimeHeader when).1 ++ msg0 ++ "\n").length : Int)) } }) =
        contentOf s ++ ((formatTimeHeader when).1 ++ msg0 ++ "\n") := by
      simp [contentOf, lookupFS_fsSet_self]
    constructor
    · intro hsz
      rw [hco, hsz]
      simp only [strLen_append]
      push_cast
      ring
    · intro hnl hln
      rw [hco, countNL_append, countNL_append, countNL_append, countNL_header, hnl, hln]
      have h1 : countNL "\n" = 1 := rfl
      push_cast
      omega

/-- Claim C6 witness: a successful startLogger on the sample state leaves
counters matching the reopened file. -/
theorem counters_track_file_witness :
    (startLogger s0 envOK t0).2 = none ∧
    ((startLogger s0 envOK t0).1.w.maxSizeCurSize =
       ((contentOf (startLogger s0 envOK t0).1).length : Int) ∧
     (startLogger s0 envOK t0).1.w.maxLinesCurLines =
       (if (0:Int) < ((contentOf (startLogger s0 envOK t0).1).length : Int) ∧
           (0:Int) < (startLogger s0 envOK t0).1.w.MaxLines
        then (countNL (contentOf (startLogger s0 envOK t0).1) : Int) else 0)) :=
  ⟨by decide, (counters_track_file s0 envOK t0 t0 "m" 0).1 (by decide)⟩

end Wlog

